import Mathlib

/-!
Shallow embedding of the inventory / billing / reporting core of the
aeindri_agro_food application (src/management/models.py, admin.py, views.py).

Monetary and quantity values are Python `Decimal`s in the source; the source
performs no rounding or quantization on computed values, so exact rational
arithmetic (`ℚ`) is a faithful model.  Dates and datetimes are modelled as
integer day ordinals (the source only compares, truncates and subtracts
whole days on the paths embedded here).
-/

/-- Embeds `models.BillItem`: belongs to a bill, references a finished product
(by id), with quantity, the price captured at billing time, and the
`has_stock_deducted` flag. -/
structure BillItem where
  product : Nat
  quantity_kg : ℚ
  price_per_unit : ℚ
  has_stock_deducted : Bool
  deriving DecidableEq, Repr

/-- Embeds `models.Bill`: its owned line items, `other_expenses`,
the `has_gst` flag, and `bill_date` (day ordinal). The customer reference is
irrelevant to every embedded computation and is omitted. -/
structure Bill where
  items : List BillItem
  other_expenses : ℚ
  has_gst : Bool
  bill_date : Int
  deriving DecidableEq, Repr

/-- Embeds the ORM aggregate
`items.aggregate(total=Sum(F(quantity_kg) * F(price_per_unit)))`:
SQL `SUM` over an empty set of rows is NULL, modelled as `none`; otherwise the
sum of `quantity_kg * price_per_unit` over the rows. -/
def aggregateItemsTotal (items : List BillItem) : Option ℚ :=
  match items with
  | [] => none
  | _ => some (items.foldl (fun acc it => acc + it.quantity_kg * it.price_per_unit) 0)

/-- Embeds `Bill.get_subtotal`: the aggregate above, with `None` replaced by
`Decimal 0.00`. -/
def Bill.get_subtotal (b : Bill) : ℚ :=
  match aggregateItemsTotal b.items with
  | none => 0
  | some s => s

/-- Embeds `Bill.get_gst_amount`: `subtotal * Decimal 0.18` when `has_gst`,
else `Decimal 0.00`.  `Decimal 0.18` is exactly `18/100`. -/
def Bill.get_gst_amount (b : Bill) : ℚ :=
  if b.has_gst then b.get_subtotal * (18 / 100) else 0

/-- Embeds `Bill.get_grand_total`: subtotal + GST + other expenses. -/
def Bill.get_grand_total (b : Bill) : ℚ :=
  b.get_subtotal + b.get_gst_amount + b.other_expenses

/-- A rational has at most two decimal places when multiplying it by 100
yields an integer. -/
def hasAtMostTwoDecimals (x : ℚ) : Prop :=
  ∃ n : ℤ, x * 100 = (n : ℚ)

/-- Concrete bill used to test the two-decimal-places claim: one item of
0.50 kg at 0.25 per kg, GST enabled. -/
def billQuarterKg : Bill :=
  { items := [{ product := 0, quantity_kg := 1/2, price_per_unit := 1/4,
                has_stock_deducted := false }],
    other_expenses := 0, has_gst := true, bill_date := 0 }

/-! ## Stock adjustment engine (admin.py) -/

/-- One inline form of the `BillItem` formset posted with a bill save.
`isInitial` is true for forms bound to a pre-existing `BillItem` row
(the Django `formset.initial_forms`); newly added rows are extra forms
(`isInitial = false`).  `changed` is `form.has_changed()`, `deleted` marks
forms whose delete checkbox was ticked (`formset.deleted_forms`). -/
structure ItemForm where
  productId : Nat
  quantity_kg : ℚ
  isInitial : Bool
  changed : Bool
  deleted : Bool
  deriving DecidableEq, Repr

/-- Embeds Django `BaseModelFormSet.save_existing_objects`: it saves and
returns exactly the changed instances among the initial (pre-existing,
non-deleted) forms.  Newly added rows live in the extra forms and are handled
by `save_new_objects` instead, so they are never in this list. -/
def save_existing_objects (fs : List ItemForm) : List ItemForm :=
  fs.filter (fun f => f.isInitial && f.changed && !f.deleted)

/-- Embeds Django `BaseFormSet.deleted_forms`: the forms marked for
deletion. -/
def formset_deleted_forms (fs : List ItemForm) : List ItemForm :=
  fs.filter (fun f => f.deleted)

/-- Finished-product stock levels, indexed by product id. -/
def Stocks : Type := Nat → ℚ

/-- Embeds `item.product.current_stock_kg = F(current_stock_kg) - q;
item.product.save()`: an atomic in-database decrement of one product
stock. -/
def deductStock (s : Stocks) (pid : Nat) (q : ℚ) : Stocks :=
  fun i => if i = pid then s i - q else s i

/-- Embeds `item.product.current_stock_kg = F(current_stock_kg) + q;
item.product.save()`: an atomic in-database increment of one product
stock. -/
def addStock (s : Stocks) (pid : Nat) (q : ℚ) : Stocks :=
  fun i => if i = pid then s i + q else s i

/-- Embeds `BillAdmin.save_related` (admin.py lines 54-71): after the formsets
are saved, for each form in `formset.save_existing_objects()` the item
product stock is decreased by the item quantity, and for each form in
`formset.deleted_forms` the item product stock is increased by the item
quantity. -/
def BillAdmin.save_related (formsets : List (List ItemForm)) (s : Stocks) : Stocks :=
  formsets.foldl
    (fun s fs =>
      let s1 := (save_existing_objects fs).foldl
        (fun s it => deductStock s it.productId it.quantity_kg) s
      (formset_deleted_forms fs).foldl
        (fun s it => addStock s it.productId it.quantity_kg) s1)
    s

/-- Embeds `WheatPurchaseAdmin.save_model` (admin.py lines 100-111) acting on
the referenced raw material stock: on creation (`change = false`) the stock
is increased by the purchase quantity; on an edit of an existing record
(`change = true`) the `else` branch is `pass` and the stock is untouched. -/
def WheatPurchaseAdmin.save_model (change : Bool) (quantity_kg : ℚ) (stock : ℚ) : ℚ :=
  if !change then stock + quantity_kg else stock

/-- Raw-material and finished-product stock of the pair referenced by one
production entry. -/
structure ProdStocks where
  raw : ℚ
  fin : ℚ
  deriving DecidableEq, Repr

/-- Embeds `ProductionAdmin.save_model` (admin.py lines 119-134): on creation
(`change = false`) the raw material stock is decreased by
`quantity_kg * finished_product.raw_material_ratio` (here `usedPerKg`) and the
finished product stock is increased by `quantity_kg`; on an edit the `else`
branch is `pass`. -/
def ProductionAdmin.save_model (change : Bool) (quantity_kg : ℚ) (usedPerKg : ℚ)
    (s : ProdStocks) : ProdStocks :=
  if !change then
    { raw := s.raw - quantity_kg * usedPerKg, fin := s.fin + quantity_kg }
  else s

/-! ## Dates

Dates are day ordinals (days since 1970-01-01, negative before).  The civil
calendar conversions follow the standard Gregorian algorithms; the Lean `Int`
division and modulo are Euclidean, which agrees with Python floor division
for the positive divisors used here. -/

/-- Gregorian leap-year rule. -/
def isLeapYear (y : Nat) : Bool :=
  (y % 4 == 0 && y % 100 != 0) || (y % 400 == 0)

/-- Number of days in a month, as validated by Python `datetime`. -/
def daysInMonth (y m : Nat) : Nat :=
  if m = 2 then (if isLeapYear y then 29 else 28)
  else if m = 4 ∨ m = 6 ∨ m = 9 ∨ m = 11 then 30
  else 31

/-- Day ordinal of a civil date (days since 1970-01-01). -/
def daysFromCivil (y m d : Int) : Int :=
  let yy := if m ≤ 2 then y - 1 else y
  let era := (if 0 ≤ yy then yy else yy - 399) / 400
  let yoe := yy - era * 400
  let mp := (m + 9) % 12
  let doy := (153 * mp + 2) / 5 + d - 1
  let doe := yoe * 365 + yoe / 4 - yoe / 100 + doy
  era * 146097 + doe - 719468

/-- Civil date (year, month, day) of a day ordinal; inverse of
`daysFromCivil`. -/
def civilFromDays (z : Int) : Int × Int × Int :=
  let z2 := z + 719468
  let era := (if 0 ≤ z2 then z2 else z2 - 146096) / 146097
  let doe := z2 - era * 146097
  let yoe := (doe - doe / 1460 + doe / 36524 - doe / 146096) / 365
  let y := yoe + era * 400
  let doy := doe - (365 * yoe + yoe / 4 - yoe / 100)
  let mp := (5 * doy + 2) / 153
  let d := doy - (153 * mp + 2) / 5 + 1
  let m := mp + (if mp < 10 then 3 else -9)
  ((if m ≤ 2 then y + 1 else y), m, d)

/-- Embeds Django `TruncDay` on a date: the identity on day ordinals. -/
def truncDay (z : Int) : Int := z

/-- Embeds Django `TruncWeek`: truncate to the Monday of the week.  Ordinal 0
(1970-01-01) is a Thursday, so the Monday-based weekday is `(z + 3) % 7`. -/
def truncWeek (z : Int) : Int := z - (z + 3) % 7

/-- Embeds Django `TruncMonth`: truncate to the first day of the month. -/
def truncMonth (z : Int) : Int :=
  let c := civilFromDays z
  daysFromCivil c.1 c.2.1 1

/-- Split a character list on the dash character (the separators of the
`%Y-%m-%d` format). -/
def splitDash : List Char → List (List Char)
  | [] => [[]]
  | c :: cs =>
      let r := splitDash cs
      if c = '-' then [] :: r
      else
        match r with
        | [] => [[c]]
        | g :: gs => (c :: g) :: gs

/-- Read a non-empty all-digit character list as a natural number. -/
def digitsToNatAux (acc : Nat) : List Char → Option Nat
  | [] => some acc
  | c :: cs =>
      if c.isDigit then digitsToNatAux (10 * acc + (c.toNat - 48)) cs else none

/-- Read a non-empty all-digit character list as a natural number; `none` on
an empty list or any non-digit character. -/
def digitsToNat : List Char → Option Nat
  | [] => none
  | cs => digitsToNatAux 0 cs

/-- Embeds Python `datetime.strptime with format %Y-%m-%d` up to its success /
ValueError distinction: `%Y` matches exactly four digits, `%m` and `%d` match
one or two digits, the three parts are separated by single dashes with
nothing left over, and `datetime` validates the month (1-12) and the day
against the month length.  The parsed date is returned as its day
ordinal; an unparsable string is `none` (strptime raises ValueError). -/
def parseDate (s : String) : Option Int :=
  match splitDash s.data with
  | [ys, ms, ds] =>
      if ys.length = 4 ∧ 1 ≤ ms.length ∧ ms.length ≤ 2 ∧ 1 ≤ ds.length ∧ ds.length ≤ 2 then
        match digitsToNat ys, digitsToNat ms, digitsToNat ds with
        | some y, some m, some d =>
            if 1 ≤ m ∧ m ≤ 12 ∧ 1 ≤ d ∧ d ≤ daysInMonth y m then
              some (daysFromCivil (y : Int) (m : Int) (d : Int))
            else none
        | _, _, _ => none
      else none
  | _ => none

/-- Python truthiness of an optional query parameter: an absent parameter is
`None` (falsy) and a present one is a string, falsy exactly when empty. -/
def paramTruthy : Option String → Bool
  | none => false
  | some s => !s.isEmpty

/-- Embeds views.py lines 39-51: given the raw `start_date` and `end_date`
query parameters and the current day ordinal, return the `(start_date, end_date)`
pair the report runs over.  When both parameters are present and truthy they
are parsed with `strptime %Y-%m-%d`; a ValueError/TypeError from parsing,
or a missing/empty parameter, falls back to the trailing 30-day window
`(today - 30 days, today)`.  The function is total: no error escapes. -/
def resolveDateRange (start_param end_param : Option String) (today : Int) :
    Int × Int :=
  let thirty_days_ago := today - 30
  if paramTruthy start_param && paramTruthy end_param then
    match parseDate (start_param.getD ("")), parseDate (end_param.getD ("")) with
    | some sd, some ed => (sd, ed)
    | _, _ => (thirty_days_ago, today)
  else (thirty_days_ago, today)

/-! ## Reporting aggregator (views.py) -/

/-- Embeds `models.RawMaterial`. -/
structure RawMaterial where
  name : String
  current_stock_kg : ℚ
  deriving DecidableEq, Repr

/-- Embeds `models.FinishedProduct`.  `raw_material_per_kg` embeds the
`raw_material_ratio` field (verbose name: Raw Material Used (Per Kg)). -/
structure FinishedProduct where
  name : String
  current_stock_kg : ℚ
  cost_per_kg : ℚ
  mrp_per_kg : ℚ
  selling_price_per_kg : ℚ
  raw_material_per_kg : ℚ
  deriving DecidableEq, Repr

/-- Embeds `models.Production`: the referenced raw material and finished
product are carried by name (the reporting code only reads their names). -/
structure Production where
  production_date : Int
  raw_material_name : String
  finished_product_name : String
  quantity_kg : ℚ
  deriving DecidableEq, Repr

/-- Embeds `models.Expense`. -/
structure Expense where
  description : String
  amount : ℚ
  date : Int
  deriving DecidableEq, Repr

/-- Embeds `models.WheatPurchase`. -/
structure WheatPurchase where
  raw_material_name : String
  quantity_kg : ℚ
  price_per_unit : ℚ
  other_expenses : ℚ
  payment_mode : String
  purchase_date : Int
  is_paid : Bool
  deriving DecidableEq, Repr

/-- Embeds ORM keyword resolution for a decimal-valued `F(...)` lookup on
`Bill`.  the Bill model database fields are id, customer, bill_date, is_paid,
other_expenses and has_gst, of which only `other_expenses` is a decimal
column; `get_grand_total` is a Python method of the model, not a field or an
annotation, so `F(get_grand_total)` does not resolve and evaluating the
queryset raises `django.core.exceptions.FieldError`. -/
def resolveBillNumericKeyword (keyword : String) : Option (Bill → ℚ) :=
  if keyword = "other_expenses" then some Bill.other_expenses else none

/-- The error Django raises for `Sum(F(get_grand_total))` on `Bill`. -/
def fieldErrorBill : String :=
  "FieldError: Cannot resolve keyword get_grand_total into field"

/-- The error Django raises for `values(product__name)` on `Production`. -/
def fieldErrorProduction : String :=
  "FieldError: Cannot resolve keyword product into field"

/-- Embeds ORM keyword resolution for a `values(...)` name lookup on
`Production`, whose fields are id, production_date, raw_material,
finished_product and quantity_kg.  The foreign key to the finished product is
named `finished_product`, so the keyword `product` (as in `product__name`)
does not resolve and Django raises `FieldError`. -/
def resolveProductionNameKeyword (keyword : String) :
    Except String (Production → String) :=
  if keyword = "finished_product__name" then
    Except.ok (fun p => p.finished_product_name)
  else if keyword = "raw_material__name" then
    Except.ok (fun p => p.raw_material_name)
  else Except.error fieldErrorProduction

/-- Fold one keyed value into a running list of group sums (the grouping step
of `values(k).annotate(Sum(v))`). -/
def addToGroups {α : Type} [DecidableEq α] (k : α) (v : ℚ) :
    List (α × ℚ) → List (α × ℚ)
  | [] => [(k, v)]
  | (k0, v0) :: rest =>
      if k = k0 then (k0, v0 + v) :: rest else (k0, v0) :: addToGroups k v rest

/-- Group a list by a key and sum a value per group
(`values(key).annotate(total=Sum(val))`). -/
def groupSum {α β : Type} [DecidableEq α] (key : β → α) (val : β → ℚ)
    (xs : List β) : List (α × ℚ) :=
  xs.foldl (fun acc x => addToGroups (key x) (val x) acc) []

/-- Insert one pair into a list sorted on keys by `le` (insertion sort
step). -/
def insertOrdered {α : Type} (le : α → α → Bool) (x : α × ℚ) :
    List (α × ℚ) → List (α × ℚ)
  | [] => [x]
  | y :: ys => if le x.1 y.1 then x :: y :: ys else y :: insertOrdered le x ys

/-- Order grouped rows by key ascending (`order_by(key)`). -/
def orderByKey {α : Type} (le : α → α → Bool) (xs : List (α × ℚ)) :
    List (α × ℚ) :=
  xs.foldl (fun acc x => insertOrdered le x acc) []

/-- Boolean linear order on strings (database collation order on names). -/
def strLe (a b : String) : Bool := !(decide (b < a))

/-- Boolean order on day ordinals. -/
def intLe (a b : Int) : Bool := decide (a ≤ b)

/-- Keep the records whose date lies in the inclusive range
(`...__date__range=[start_date, end_date]`). -/
def filterRange {β : Type} (dateOf : β → Int) (s e : Int) (xs : List β) :
    List β :=
  xs.filter (fun x => decide (s ≤ dateOf x ∧ dateOf x ≤ e))

/-- The `report_data` mapping rendered by the report panel: one constructor
per branch of views.py lines 53-113, plus `empty` for the initial `{}`. -/
inductive ReportData where
  | empty : ReportData
  | sales : List (Int × ℚ) → ReportData
  | profitLoss : ℚ → ℚ → ℚ → ReportData
  | productionRows : List (String × ℚ) → ReportData
  | expenseRows : List (String × ℚ) → ReportData
  | inventory : List RawMaterial → List FinishedProduct → ReportData
  deriving DecidableEq, Repr

/-- The full database contents read by the report panel. -/
structure ReportInputs where
  bills : List Bill
  expenses : List Expense
  productions : List Production
  purchases : List WheatPurchase
  raw_materials : List RawMaterial
  finished_products : List FinishedProduct
  deriving Repr

/-- Embeds the daily/weekly/monthly sales branch (views.py lines 60-72):
`bills.annotate(date=Trunc...(bill_date)).values(date)
.annotate(total_sales=Sum(F(get_grand_total))).order_by(date)`.
`F(get_grand_total)` must resolve against the Bill model fields and does not, so
evaluating the queryset raises `FieldError` before producing any row. -/
def sales_bucketed (trunc : Int → Int) (bills : List Bill) :
    Except String (List (Int × ℚ)) :=
  match resolveBillNumericKeyword ("get_grand_total") with
  | none => Except.error fieldErrorBill
  | some f =>
      Except.ok (orderByKey intLe (groupSum (fun b => trunc b.bill_date) f bills))

/-- Embeds the sales_profit branch (views.py lines 73-84).  `total_sales` is
`bills.aggregate(total_sales=Sum(F(get_grand_total)))` whose keyword fails
to resolve (FieldError); expenses and wheat-purchase cost aggregate with
`or 0` None-handling, modelled by list sums over the filtered rows.  On
success the result would be (total_sales, total_expenses + total_wheat,
profit_or_loss). -/
def sales_profit (bills : List Bill) (expenses : List Expense)
    (purchases : List WheatPurchase) : Except String (ℚ × ℚ × ℚ) :=
  match resolveBillNumericKeyword ("get_grand_total") with
  | none => Except.error fieldErrorBill
  | some f =>
      let total_sales := (bills.map f).foldl (fun a x => a + x) 0
      let total_expenses := (expenses.map Expense.amount).foldl (fun a x => a + x) 0
      let total_wheat :=
        (purchases.map (fun p => p.quantity_kg * p.price_per_unit)).foldl
          (fun a x => a + x) 0
      Except.ok (total_sales, total_expenses + total_wheat,
        total_sales - (total_expenses + total_wheat))

/-- Embeds the production_summary branch (views.py lines 86-90):
`productions.values(product__name).annotate(total_quantity=Sum(F(quantity_kg)))
.order_by(product__name)`.  The keyword `product` does not resolve on
`Production` (the field is `finished_product`), so evaluating the queryset
raises `FieldError` before producing any row. -/
def production_summary (productions : List Production) :
    Except String (List (String × ℚ)) :=
  match resolveProductionNameKeyword ("product__name") with
  | Except.error e => Except.error e
  | Except.ok key =>
      Except.ok (orderByKey strLe (groupSum key Production.quantity_kg productions))

/-- Embeds the expense_summary branch (views.py lines 92-96):
`expenses.values(description).annotate(total_amount=Sum(amount))
.order_by(description)`. -/
def expense_summary (expenses : List Expense) : List (String × ℚ) :=
  orderByKey strLe (groupSum Expense.description Expense.amount expenses)

/-- Embeds `report_type = request.GET.get(report_type, default daily_sales)`. -/
def report_type_of (p : Option String) : String := p.getD ("daily_sales")

/-- The seven report kinds the view if/elif chain recognizes. -/
def recognizedReportTypes : List String :=
  ["daily_sales", "weekly_sales", "monthly_sales", "sales_profit",
   "production_summary", "expense_summary", "inventory_summary"]

/-- Embeds views.py lines 53-113: `report_data = {}` followed by the if/elif
chain on `report_type` over the date-filtered querysets.  A branch whose
queryset evaluation raises is an `Except.error`; an unrecognized report type
matches no branch and leaves `report_data` as the initial empty dict. -/
def build_report_data (report_type : String) (d1 d2 : Int)
    (inp : ReportInputs) : Except String ReportData :=
  let bills := filterRange Bill.bill_date d1 d2 inp.bills
  let expenses := filterRange Expense.date d1 d2 inp.expenses
  let productions := filterRange Production.production_date d1 d2 inp.productions
  if report_type = "daily_sales" ∨ report_type = "weekly_sales" ∨
      report_type = "monthly_sales" then
    let trunc :=
      if report_type = "daily_sales" then truncDay
      else if report_type = "weekly_sales" then truncWeek
      else truncMonth
    match sales_bucketed trunc bills with
    | Except.error e => Except.error e
    | Except.ok rows => Except.ok (ReportData.sales rows)
  else if report_type = "sales_profit" then
    match sales_profit bills expenses
        (filterRange WheatPurchase.purchase_date d1 d2 inp.purchases) with
    | Except.error e => Except.error e
    | Except.ok t => Except.ok (ReportData.profitLoss t.1 t.2.1 t.2.2)
  else if report_type = "production_summary" then
    match production_summary productions with
    | Except.error e => Except.error e
    | Except.ok rows => Except.ok (ReportData.productionRows rows)
  else if report_type = "expense_summary" then
    Except.ok (ReportData.expenseRows (expense_summary expenses))
  else if report_type = "inventory_summary" then
    Except.ok (ReportData.inventory inp.raw_materials inp.finished_products)
  else
    Except.ok ReportData.empty

/-! ## Concrete sample data used by witnesses and counterexamples -/

/-- A formset form for a newly added bill item: 5 kg of product 0
(`isInitial = false`, so it is an extra form, not an initial one). -/
def newItemForm5 : ItemForm :=
  { productId := 0, quantity_kg := 5, isInitial := false, changed := true,
    deleted := false }

/-- A formset form for the same item on a later save with its delete box
ticked. -/
def deletedItemForm5 : ItemForm :=
  { productId := 0, quantity_kg := 5, isInitial := true, changed := false,
    deleted := true }

/-- Initial finished-product stock: 100 kg for every product. -/
def stock100 : Stocks := fun _ => 100

/-- An empty database for the report panel. -/
def emptyReportInputs : ReportInputs :=
  { bills := [], expenses := [], productions := [], purchases := [],
    raw_materials := [], finished_products := [] }

/-! ## Claims -/

/-- C1: the spec claims that a bill save deducts finished-product stock for
every newly added or modified bill item (and restores it for removed items),
so that add-then-remove is a round trip.  The code only iterates
`formset.save_existing_objects()`, which never contains newly added (extra)
forms, so saving a bill with one newly added 5 kg item leaves the product
stock at 100 instead of 95; deleting the item on a later save then adds 5,
so the add-then-remove round trip ends at 105, not 100. -/
theorem c1_new_bill_item_not_deducted :
    BillAdmin.save_related [[newItemForm5]] stock100 0 = 100 ∧
    BillAdmin.save_related [[deletedItemForm5]]
      (BillAdmin.save_related [[newItemForm5]] stock100) 0 = 105 := by
  constructor
  · rfl
  · show (100 : ℚ) + 5 = 105
    norm_num

/-- C2: creating a Production of quantity Q with a finished product whose
raw-material ratio is k decreases the raw material stock by Q * k and
increases the finished product stock by Q, and the resulting state carries
both adjustments together. -/
theorem c2_production_save_adjusts_both_stocks :
    ∀ (q used : ℚ) (s : ProdStocks),
      (ProductionAdmin.save_model false q used s).raw = s.raw - q * used ∧
      (ProductionAdmin.save_model false q used s).fin = s.fin + q := by
  intro q used s; exact ⟨rfl, rfl⟩

/-- C3: creating a WheatPurchase of quantity Q increases the raw material
stock by exactly Q, and a subsequent re-save of the same record
(`change = true`) applies no further increment, leaving the stock at the
once-incremented value. -/
theorem c3_wheat_purchase_increments_once :
    ∀ (q s : ℚ),
      WheatPurchaseAdmin.save_model false q s = s + q ∧
      WheatPurchaseAdmin.save_model true q
        (WheatPurchaseAdmin.save_model false q s) = s + q := by
  intro q s; exact ⟨rfl, rfl⟩

/-- C4: for every Bill, grand_total = subtotal + gst_amount + other_expenses,
and gst_amount is subtotal * 0.18 when has_gst and 0 when not. -/
theorem c4_bill_grand_total_formula :
    ∀ b : Bill,
      b.get_grand_total = b.get_subtotal + b.get_gst_amount + b.other_expenses ∧
      b.get_gst_amount = (if b.has_gst then b.get_subtotal * (18 / 100) else 0) := by
  intro b; exact ⟨rfl, rfl⟩

/-- C5: for every Bill with zero items, the subtotal is the number 0 (the
NULL aggregate is replaced by Decimal 0.00 before any arithmetic), the GST
amount is 0, and the grand total equals other_expenses. -/
theorem c5_zero_item_bill_totals :
    ∀ (oe : ℚ) (g : Bool) (d : Int),
      Bill.get_subtotal { items := [], other_expenses := oe, has_gst := g, bill_date := d } = 0 ∧
      Bill.get_gst_amount { items := [], other_expenses := oe, has_gst := g, bill_date := d } = 0 ∧
      Bill.get_grand_total { items := [], other_expenses := oe, has_gst := g, bill_date := d } = oe := by
  intro oe g d
  have hsub : Bill.get_subtotal
      { items := [], other_expenses := oe, has_gst := g, bill_date := d } = 0 := rfl
  have hgst : Bill.get_gst_amount
      { items := [], other_expenses := oe, has_gst := g, bill_date := d } = 0 := by
    unfold Bill.get_gst_amount
    rw [hsub]; cases g <;> simp
  refine ⟨hsub, hgst, ?_⟩
  unfold Bill.get_grand_total
  rw [hsub, hgst]; ring

/-- C6: the spec claims the sales-and-profit report returns total sales minus
(expenses plus wheat-purchase cost).  The implementation aggregates
`Sum(F(get_grand_total))`, and `get_grand_total` is a model method, not a
database field, so on every input the branch raises FieldError instead of
returning any profit figure. -/
theorem c6_sales_profit_report_raises_field_error :
    ∀ (bills : List Bill) (expenses : List Expense)
      (purchases : List WheatPurchase),
      sales_profit bills expenses purchases = Except.error fieldErrorBill := by
  intro _ _ _; rfl

/-- C7: the spec claims the production-summary report groups productions by
finished product name.  The implementation groups on the keyword
`product__name`, and Production has no field named `product` (the foreign key
is `finished_product`), so on every input the branch raises FieldError
instead of returning any grouped rows. -/
theorem c7_production_summary_raises_field_error :
    ∀ productions : List Production,
      production_summary productions = Except.error fieldErrorProduction := by
  intro _; rfl

/-- C8: whenever the start_date or end_date report parameter is missing,
empty, or fails to parse as %Y-%m-%d, the resolved range is the default
trailing 30-day window ending today, and no error escapes (the resolver is a
total function). -/
theorem c8_invalid_dates_fall_back_to_default_window :
    ∀ (sp ep : Option String) (today : Int),
      (paramTruthy sp = false ∨ paramTruthy ep = false ∨
       parseDate (sp.getD ("")) = none ∨ parseDate (ep.getD ("")) = none) →
      resolveDateRange sp ep today = (today - 30, today) := by
  intro sp ep today h
  unfold resolveDateRange
  split
  · split
    · exfalso
      rcases h with h | h | h | h <;> simp_all
    · rfl
  · rfl

/-- C8 witness: the string not-a-date does not parse, and with it as
start_date (and a valid end_date) on day 20000 the resolved range is
(19970, 20000), the trailing 30-day window. -/
theorem c8_default_window_witness :
    parseDate ("not-a-date") = none ∧
    resolveDateRange (some ("not-a-date")) (some ("2024-01-31")) 20000 =
      (20000 - 30, 20000) :=
  ⟨by decide,
   c8_invalid_dates_fall_back_to_default_window
     (some ("not-a-date")) (some ("2024-01-31")) 20000
     (Or.inr (Or.inr (Or.inl (by decide))))⟩

/-- C9 counterexample: the claim that get_gst_amount always has at most two
decimal places fails: for the bill with one item of 0.50 kg at 0.25 per kg,
get_gst_amount is 0.0225 (= 9/400), and 100 times it is 9/4, not an
integer. -/
theorem c9_gst_amount_exceeds_two_decimals :
    ¬ hasAtMostTwoDecimals (Bill.get_gst_amount billQuarterKg) := by
  have h : Bill.get_gst_amount billQuarterKg = 9 / 400 := by
    norm_num [Bill.get_gst_amount, Bill.get_subtotal, aggregateItemsTotal,
      billQuarterKg]
  rw [h]
  rintro ⟨n, hn⟩
  have h4 : (9 : ℚ) = 4 * (n : ℚ) := by field_simp at hn; linarith
  have h9 : (9 : ℤ) = 4 * n := by exact_mod_cast h4
  omega

/-- C9 amended: billing arithmetic is exact (rational) decimal arithmetic
with no floating-point error — 100 times the GST amount is exactly 18 times
the subtotal when has_gst and 0 otherwise — but no rounding to two decimal
places is performed, so get_gst_amount can carry more than two decimal
places. -/
theorem c9_billing_arithmetic_exact :
    ∀ b : Bill,
      100 * b.get_gst_amount = (if b.has_gst then 18 * b.get_subtotal else 0) := by
  intro b
  unfold Bill.get_gst_amount
  cases hb : b.has_gst
  · simp
  · simp
    ring

/-- C10: a missing report_type parameter defaults to daily_sales, and any
report_type outside the seven recognized kinds matches no branch of the
if/elif chain, so the view returns the initial empty report_data mapping
without raising. -/
theorem c10_unrecognized_report_type_renders_empty :
    report_type_of none = "daily_sales" ∧
    ∀ (t : String) (d1 d2 : Int) (inp : ReportInputs),
      t ∉ recognizedReportTypes →
      build_report_data t d1 d2 inp = Except.ok ReportData.empty := by
  refine ⟨rfl, ?_⟩
  intro t d1 d2 inp h
  simp only [recognizedReportTypes, List.mem_cons, List.not_mem_nil, or_false,
    not_or] at h
  obtain ⟨h1, h2, h3, h4, h5, h6, h7⟩ := h
  simp [build_report_data, h1, h2, h3, h4, h5, h6, h7]

/-- C10 witness: the report type bogus is not recognized and produces the
empty report_data mapping on an empty database over days 0..30. -/
theorem c10_unrecognized_witness :
    ("bogus") ∉ recognizedReportTypes ∧
    build_report_data ("bogus") 0 30 emptyReportInputs =
      Except.ok ReportData.empty :=
  ⟨by decide,
   c10_unrecognized_report_type_renders_empty.2 ("bogus") 0 30
     emptyReportInputs (by decide)⟩
